import Mathlib

/-!
Verification of the dual-pipeline audio transcriber (`ts_audio_transcriber`).

This file shallowly embeds the parts of the TypeScript source that the
checked claims are about:

* `SessionRecorder` (WAV writing, header patch-up, max-duration cutoff,
  `.partial.wav` to `.wav` rename) from `src/core/session-recorder.ts`;
* `SnippetPipeline` (buffer windowing, bounded queue with drop-oldest
  overflow, snippet index accounting, confidence filtering) from
  `src/core/snippet-pipeline.ts`;
* `SessionPipeline` (`processFinalSession`, WAV chunk walk in
  `readAudioFile`, word counting) from `src/core/session-pipeline.ts`;
* `AudioTranscriber` (constructor-time `validateOptions`, the resource
  acquisitions of `start()`, and the ordered error-isolated `stop()`
  sequence) from `src/core/audio-transcriber.ts`.

Modelling conventions:
* A Node `Buffer` is a `List Nat` of byte values; `Buffer.write*` /
  `Buffer.read*` bounds behaviour follows Node (reads past the end throw,
  `slice`/`toString` clamp).
* JavaScript numbers appear as `Nat` (byte counts, millisecond
  timestamps) or `ℚ` (confidence scores).  The two `number` comparisons
  the claims depend on, `bufferLength / 2 / 16000 >= intervalSeconds` and
  `(now - startTime) / 1000 > maxDuration`, are exact divisions of
  integers small enough that IEEE-754 rounding cannot change their truth
  value, so they are embedded as the equivalent integer comparisons
  `32000 * intervalSeconds ≤ bufferLength` and
  `1000 * maxDuration < now - startTime`.
* Promise-returning code is embedded as explicit state passing; fallible
  steps return `Except`.  Events emitted through the `EventEmitter` are
  collected into explicit lists/traces.
-/

/-! ## Byte-level utilities (Node `Buffer` semantics) -/

/-- Little-endian 16-bit encoding of `n` (the two bytes
`Buffer.writeUInt16LE` stores; Node additionally range-checks `n < 2^16`,
which holds for every value the source writes). -/
def le16 (n : Nat) : List Nat :=
  [n % 256, n / 256 % 256]

/-- Little-endian 32-bit encoding of `n` (the four bytes
`Buffer.writeUInt32LE` stores; Node additionally range-checks `n < 2^32`). -/
def le32 (n : Nat) : List Nat :=
  [n % 256, n / 256 % 256, n / 65536 % 256, n / 16777216 % 256]

/-- Value of four little-endian bytes. -/
def decodeLE4 : List Nat → Nat
  | [a, b, c, d] => a + 256 * b + 65536 * c + 16777216 * d
  | _ => 0

/-- `buf.readUInt32LE(off)`: Node throws `ERR_OUT_OF_RANGE` unless
`off + 4 ≤ buf.length`. -/
def readUInt32LE (buf : List Nat) (off : Nat) : Except String Nat :=
  if off + 4 ≤ buf.length then
    .ok (decodeLE4 ((buf.drop off).take 4))
  else
    .error "ERR_OUT_OF_RANGE"

/-- In-place patch of `patch` into `buf` at byte offset `off`, the effect of
`fd.write(patch, 0, patch.length, off)` on a file opened `r+`
(the source only patches strictly inside the existing 44-byte header). -/
def writeAt (buf : List Nat) (off : Nat) (patch : List Nat) : List Nat :=
  buf.take off ++ patch ++ buf.drop (off + patch.length)

/-! ## Character/string helpers (JavaScript string semantics) -/

/-- JavaScript `String.prototype.trim`: strip leading and trailing
whitespace. -/
def jsTrim (s : List Char) : List Char :=
  ((s.dropWhile Char.isWhitespace).reverse.dropWhile Char.isWhitespace).reverse

/-- JavaScript `String.prototype.replace(pattern, rep)` with a plain string
pattern: replace only the first occurrence, return the input unchanged when
the pattern does not occur. -/
def replaceFirstOcc (pat rep : List Char) : List Char → List Char
  | [] => if pat.isPrefixOf ([] : List Char) then rep else []
  | c :: cs =>
    if pat.isPrefixOf (c :: cs) then rep ++ (c :: cs).drop pat.length
    else c :: replaceFirstOcc pat rep cs

/-- `text.trim().split(/\s+/).filter(w => w.length > 0).length` from
`SessionPipeline.countWords`: the number of maximal runs of non-whitespace
characters. -/
def countWordsAux : List Char → Bool → Nat
  | [], _ => 0
  | c :: cs, inWord =>
    if c.isWhitespace then countWordsAux cs false
    else (if inWord then 0 else 1) + countWordsAux cs true

/-- `SessionPipeline.countWords`. -/
def countWords (s : List Char) : Nat :=
  countWordsAux s false

/-! ## Engine results

Both engines (`vosk-engine.ts`, `whisper-engine.ts`) resolve
`processAudio` with either `null` or a `TranscriptionEvent`; only the
fields the claims touch are kept. -/

/-- A non-null engine `TranscriptionEvent` as consumed by the pipelines. -/
structure EngineResult where
  text : List Char
  confidence : ℚ
deriving DecidableEq, Repr

/-- Tail of `VoskTranscriptionEngine.processAudioData`: after decoding, a
result with empty `transcriptionText` or one below the engine-level
threshold is turned into `null`, so the engine never yields a non-null
result with empty text. -/
def voskFinishResult (transcriptionText : List Char) (confidence : ℚ)
    (engineThreshold : ℚ) : Option EngineResult :=
  if transcriptionText = [] then none
  else if confidence < engineThreshold then none
  else some { text := transcriptionText, confidence := confidence }

/-- Tail of `WhisperTranscriptionEngine.processAudioData`: a missing or
whitespace-only `transcriptionText` is turned into `null`, otherwise the
trimmed text is returned. -/
def whisperFinishResult (transcriptionText : List Char) (confidence : ℚ) :
    Option EngineResult :=
  if transcriptionText = [] ∨ jsTrim transcriptionText = [] then none
  else some { text := jsTrim transcriptionText, confidence := confidence }

/-! ## SessionPipeline (`src/core/session-pipeline.ts`) -/

namespace SessionPipeline

/-- `SessionTranscriptConfig` after the constructor merge
`{ confidenceThreshold: 0.7, ...config }`. -/
structure Config where
  confidenceThreshold : ℚ
deriving DecidableEq, Repr

/-- Constructor merge: a missing `confidenceThreshold` defaults to `0.7`. -/
def mkConfig (threshold : Option ℚ) : Config :=
  { confidenceThreshold := threshold.getD (7 / 10) }

/-- The `SessionTranscriptionEvent` fields the claims are about
(the others are copied metadata). -/
structure SessionEvent where
  text : List Char
  confidence : ℚ
  isComplete : Bool
  wordCount : Nat
deriving DecidableEq, Repr

inductive TranscriptionErrorKind
  | invalidConfiguration
  | audioCaptureFailed
  | transcriptionEngineError
  | permissionDenied
deriving DecidableEq, Repr

/-- `SessionPipeline.processFinalSession`, given the engine result for the
recording's payload.  Returns the list of `SessionTranscript` events
emitted through the callback.  Key source facts embedded here:
a `null` result logs and returns without emitting; a result below
`confidenceThreshold` only logs a warning (`// Still emit but user can
check confidence`) and is emitted anyway. -/
def processFinalSession (cfg : Config) (isRunning : Bool)
    (engineResult : Option EngineResult) :
    Except TranscriptionErrorKind (List SessionEvent) :=
  if isRunning = false then .error .invalidConfiguration
  else
    match engineResult with
    | none => .ok []
    | some r =>
      -- the `result.confidence < confidenceThreshold` branch only warns
      .ok [{ text := r.text, confidence := r.confidence, isComplete := true,
             wordCount := countWords r.text }]

/-- The byte values of the ASCII tags compared by `readAudioFile`. -/
def riffTag : List Nat := [82, 73, 70, 70]

def waveTag : List Nat := [87, 65, 86, 69]

def dataTag : List Nat := [100, 97, 116, 97]

/-- `fileBuffer.toString('utf8', 0, 4) === 'RIFF' &&
fileBuffer.toString('utf8', 8, 12) === 'WAVE'` (Node `toString` clamps
out-of-range offsets, so a short buffer simply compares unequal). -/
def startsRiffWave (buf : List Nat) : Bool :=
  (buf.take 4 = riffTag) ∧ ((buf.drop 8).take 4 = waveTag)

/-- The chunk walk of `readAudioFile`: from `offset`, read a 4-byte chunk
id and a little-endian 32-bit size; return the `data` payload when found,
`none` when the walk runs off the end, and propagate the
`ERR_OUT_OF_RANGE` throw of `readUInt32LE` on a truncated chunk header. -/
def findDataChunk (buf : List Nat) (offset : Nat) :
    Except String (Option (List Nat)) :=
  if h : offset < buf.length then
    match readUInt32LE buf (offset + 4) with
    | .error e => .error e
    | .ok chunkSize =>
      if (buf.drop offset).take 4 = dataTag then
        .ok (some ((buf.drop (offset + 8)).take chunkSize))
      else
        findDataChunk buf (offset + 8 + chunkSize)
  else
    .ok none
termination_by buf.length - offset
decreasing_by
  simp_wf
  omega

/-- `SessionPipeline.readAudioFile` on the bytes of an existing file:
RIFF/WAVE files are searched for their `data` chunk from offset 12; if the
walk finds none, the bytes after the canonical 44-byte header are
returned; non-WAV files are returned whole (raw PCM).  Errors (including
the `readUInt32LE` throw inside the walk) are wrapped into a
`TranscriptionError`. -/
def readAudioFile (buf : List Nat) :
    Except TranscriptionErrorKind (List Nat) :=
  if startsRiffWave buf then
    match findDataChunk buf 12 with
    | .error _ => .error .audioCaptureFailed
    | .ok (some payload) => .ok payload
    | .ok none => .ok (buf.drop 44)
  else
    .ok buf

end SessionPipeline

/-! ## SnippetPipeline (`src/core/snippet-pipeline.ts`) -/

inductive AudioSource
  | microphone
  | systemAudio
deriving DecidableEq, Repr

namespace SnippetPipeline

/-- `SnippetPipelineConfig` after the constructor merge
`{ intervalSeconds: 15, confidenceThreshold: 0.4, ...config }`. -/
structure Config where
  intervalSeconds : Nat
  confidenceThreshold : ℚ
deriving DecidableEq, Repr

/-- Constructor merge: missing fields default to 15 s and 0.4. -/
def mkConfig (intervalSeconds : Option Nat) (threshold : Option ℚ) : Config :=
  { intervalSeconds := intervalSeconds.getD 15,
    confidenceThreshold := threshold.getD (2 / 5) }

/-- One `_processingQueue` entry. -/
structure QueueItem where
  data : List Nat
  source : AudioSource
  timestamp : Nat
deriving DecidableEq, Repr

/-- The mutable fields of `SnippetPipeline` that the claims are about. -/
structure State where
  audioBuffer : List Nat
  bufferStartTime : Nat
  snippetIndex : Nat
  processingQueue : List QueueItem
deriving DecidableEq, Repr

/-- State installed by `SnippetPipeline.start()` (`_audioBuffer = empty`,
`_bufferStartTime = 0`, `_snippetIndex = 0`, `_processingQueue = []`);
`start()` resets these unconditionally, so a restart reinstalls exactly
this state. -/
def startState : State :=
  { audioBuffer := [], bufferStartTime := 0, snippetIndex := 0,
    processingQueue := [] }

/-- The queue push of `processAudio` with its overflow protection:
`if (queue.length >= maxQueueSize) queue.shift(); queue.push(item)` with
`_maxQueueSize = 3`. -/
def enqueueWindow (queue : List QueueItem) (item : QueueItem) :
    List QueueItem :=
  if 3 ≤ queue.length then queue.drop 1 ++ [item] else queue ++ [item]

/-- `SnippetPipeline.processAudio` (running, engine present): accumulate
the chunk, set `_bufferStartTime` on first data, flush the *entire* buffer
into the processing queue once
`_audioBuffer.length / 2 / 16000 >= intervalSeconds` (the source hardcodes
16-bit PCM at 16 kHz; the float comparison is embedded as the equivalent
`32000 * intervalSeconds ≤ length`).  On flush the buffer is reset to
empty and `_bufferStartTime` is set to the arrival timestamp of the
current (crossing) chunk.  The second component reports the window that
became ready, if any. -/
def processAudio (intervalSeconds : Nat) (st : State) (audioData : List Nat)
    (source : AudioSource) (timestamp : Nat) : State × Option QueueItem :=
  let buf := st.audioBuffer ++ audioData
  let startT := if st.bufferStartTime = 0 then timestamp else st.bufferStartTime
  if 32000 * intervalSeconds ≤ buf.length then
    let item : QueueItem := { data := buf, source := source, timestamp := startT }
    ({ st with audioBuffer := [], bufferStartTime := timestamp,
               processingQueue := enqueueWindow st.processingQueue item },
     some item)
  else
    ({ st with audioBuffer := buf, bufferStartTime := startT }, none)

/-- Feed a sequence of `(bytes, arrivalTimestamp)` chunks through
`processAudio`, collecting every window that became ready, in order. -/
def processAudioRun (intervalSeconds : Nat) (st : State) :
    List (List Nat × Nat) → State × List QueueItem
  | [] => (st, [])
  | (chunk, ts) :: rest =>
    let step := processAudio intervalSeconds st chunk .microphone ts
    let tail := processAudioRun intervalSeconds step.1 rest
    (tail.1, step.2.toList ++ tail.2)

/-- An emitted `SnippetTranscriptionEvent` (the fields the claims touch). -/
structure SnippetEvent where
  text : List Char
  confidence : ℚ
  snippetIndex : Nat
deriving DecidableEq, Repr

/-- `SnippetPipeline.processChunk` on the engine's result for one window:
emit a snippet exactly when the result is non-null, its trimmed text is
non-empty and its confidence is at least `confidenceThreshold`; the
snippet carries the current `_snippetIndex`, which is incremented after a
successful emission only.  Returns the new index and the emitted events. -/
def processChunk (confidenceThreshold : ℚ) (snippetIndex : Nat)
    (result : Option EngineResult) : Nat × List SnippetEvent :=
  match result with
  | none => (snippetIndex, [])
  | some r =>
    if jsTrim r.text ≠ [] then
      if confidenceThreshold ≤ r.confidence then
        (snippetIndex + 1,
         [{ text := r.text, confidence := r.confidence,
            snippetIndex := snippetIndex }])
      else (snippetIndex, [])
    else (snippetIndex, [])

/-- The sequential consumer loop: process one engine result per queued
window, in order, threading `_snippetIndex`. -/
def processChunkRun (confidenceThreshold : ℚ) (snippetIndex : Nat) :
    List (Option EngineResult) → Nat × List SnippetEvent
  | [] => (snippetIndex, [])
  | r :: rs =>
    let step := processChunk confidenceThreshold snippetIndex r
    let tail := processChunkRun confidenceThreshold step.1 rs
    (tail.1, step.2 ++ tail.2)

end SnippetPipeline

/-! ## SessionRecorder (`src/core/session-recorder.ts`) -/

namespace SessionRecorder

/-- The `RecordingConfig` fields the claims are about. -/
structure RecordingConfig where
  maxDuration : Option Nat
  autoCleanup : Bool
deriving DecidableEq, Repr

/-- The mutable recorder fields the claims are about; `fileBytes` is the
content of the `.partial.wav` file being streamed to disk, and
`stopTriggered` records that `writeChunk` itself invoked `this.stop()`
(the max-duration self-stop). -/
structure State where
  isRecording : Bool
  startTime : Nat
  bytesWritten : Nat
  fileBytes : List Nat
  stopTriggered : Bool
deriving DecidableEq, Repr

/-- The 44-byte canonical WAV header written by `writeWavHeader`, with the
two placeholder size fields zero.  Byte values follow the source's
`Buffer` writes: `RIFF`, file-size placeholder, `WAVE`, `fmt `,
subchunk size 16, PCM format 1, channels, sample rate, byte rate, block
align, bits per sample, `data`, data-size placeholder. -/
def wavHeader (sampleRate channels bitDepth : Nat) : List Nat :=
  [82, 73, 70, 70] ++ le32 0 ++ [87, 65, 86, 69] ++
  [102, 109, 116, 32] ++ le32 16 ++ le16 1 ++ le16 channels ++
  le32 sampleRate ++ le32 (sampleRate * channels * (bitDepth / 8)) ++
  le16 (channels * (bitDepth / 8)) ++ le16 bitDepth ++
  [100, 97, 116, 97] ++ le32 0

/-- `SessionRecorder.start()`: fresh counters and a `.partial.wav` file
holding just the header with placeholder sizes. -/
def start (sampleRate channels bitDepth : Nat) (now : Nat) : State :=
  { isRecording := true, startTime := now, bytesWritten := 0,
    fileBytes := wavHeader sampleRate channels bitDepth,
    stopTriggered := false }

/-- `SessionRecorder.writeChunk(audioData)` at wall-clock `now`: throws
when the recorder is not active; if a configured `maxDuration` is strictly
exceeded (`(now - startTime) / 1000 > maxDuration`, embedded as
`1000 * maxDuration < now - startTime`), warns, fires `this.stop()` and
returns without writing; otherwise appends the bytes and bumps the
counter. -/
def writeChunk (cfg : RecordingConfig) (st : State) (now : Nat)
    (audioData : List Nat) : Except SessionPipeline.TranscriptionErrorKind State :=
  if st.isRecording = false then .error .invalidConfiguration
  else
    match cfg.maxDuration with
    | some maxDur =>
      if 1000 * maxDur < now - st.startTime then
        .ok { st with stopTriggered := true }
      else
        .ok { st with fileBytes := st.fileBytes ++ audioData,
                      bytesWritten := st.bytesWritten + audioData.length }
    | none =>
      .ok { st with fileBytes := st.fileBytes ++ audioData,
                    bytesWritten := st.bytesWritten + audioData.length }

/-- A sequence of `writeChunk` calls (all at wall-clock `now`). -/
def writeChunks (cfg : RecordingConfig) (st : State) (now : Nat) :
    List (List Nat) → Except SessionPipeline.TranscriptionErrorKind State
  | [] => .ok st
  | c :: cs => do
    let st1 ← writeChunk cfg st now c
    writeChunks cfg st1 now cs

/-- `updateWavHeader`: patch the RIFF size field (offset 4) with
`bytesWritten + 36` and the data-chunk size field (offset 40) with
`bytesWritten`, in place. -/
def updateWavHeader (bytesWritten : Nat) (file : List Nat) : List Nat :=
  writeAt (writeAt file 4 (le32 (bytesWritten + 36))) 40 (le32 bytesWritten)

/-- The suffixes involved in the crash-safe rename. -/
def pendingSuffix : List Char := String.toList ".partial.wav"

def finalSuffix : List Char := String.toList ".wav"

/-- `SessionRecorder.stop()` after the write stream has drained: patch the
WAV header, then rename `tempPath.replace('.partial.wav', '.wav')`.
Returns the finalized file bytes and the final path (the recorder's path
is `{sessionId}.partial.wav`). -/
def stop (st : State) (sessionId : List Char) : List Nat × List Char :=
  (updateWavHeader st.bytesWritten st.fileBytes,
   replaceFirstOcc pendingSuffix finalSuffix (sessionId ++ pendingSuffix))

end SessionRecorder

/-! ## AudioTranscriber orchestrator (`src/core/audio-transcriber.ts`) -/

namespace AudioTranscriber

open SessionPipeline (TranscriptionErrorKind)

/-- The `TranscriberOptions` fields the claims are about, after the
constructor's defaulting merge. -/
structure Options where
  enableMicrophone : Bool
  enableSystemAudio : Bool
  snippetsEnabled : Bool
  sessionTranscriptEnabled : Bool
  recordingEnabled : Bool
  /-- `recording.outputDir`; `none` models an absent field and `some []`
  an empty string (both falsy in `!this._options.recording.outputDir`). -/
  recordingOutputDir : Option (List Char)
deriving DecidableEq, Repr

/-- Truthiness of `recording.outputDir`. -/
def outputDirTruthy (dir : Option (List Char)) : Bool :=
  match dir with
  | none => false
  | some s => s ≠ []

/-- `AudioTranscriber.validateOptions` (called from the constructor):
the three configuration-shape checks, in source order. -/
def validateOptions (o : Options) : Except TranscriptionErrorKind Unit :=
  if o.snippetsEnabled = false ∧ o.sessionTranscriptEnabled = false then
    .error .invalidConfiguration
  else if o.sessionTranscriptEnabled = true ∧ o.recordingEnabled = false then
    .error .invalidConfiguration
  else if o.recordingEnabled = true ∧ outputDirTruthy o.recordingOutputDir = false then
    .error .invalidConfiguration
  else
    .ok ()

/-- The `AudioTranscriber` constructor: merge defaults (already reflected
in `Options`) and run `validateOptions`; it acquires no resource. -/
def mkAudioTranscriber (o : Options) : Except TranscriptionErrorKind Options :=
  match validateOptions o with
  | .error e => .error e
  | .ok _ => .ok o

/-- Resources acquired during `start()`, in acquisition order. -/
inductive Resource
  | sessionRecorder
  | snippetPipeline
  | sessionPipeline
  | microphoneStream
  | systemAudioStream
deriving DecidableEq, Repr

/-- `AudioTranscriber.start()` for a constructed transcriber (so the three
constructor checks already passed), abstracting the audio capture layer to
a `permissionsGranted` flag and successful stream opens.  Note the source
order: the session recorder and both pipelines are started *before* the
`streamPromises.length === 0` check that raises
`'At least one audio source must be enabled'`; on that throw the `catch`
block runs best-effort `cleanup()` and rethrows.  The first component is
the list of resources acquired before `start()` returned or threw. -/
def startRun (o : Options) (permissionsGranted : Bool) :
    List Resource × Except TranscriptionErrorKind Unit :=
  if permissionsGranted = false then
    ([], .error .permissionDenied)
  else
    let acquired :=
      (if o.recordingEnabled then [Resource.sessionRecorder] else []) ++
      (if o.snippetsEnabled then [Resource.snippetPipeline] else []) ++
      (if o.sessionTranscriptEnabled then [Resource.sessionPipeline] else [])
    if o.enableMicrophone = false ∧ o.enableSystemAudio = false then
      (acquired, .error .invalidConfiguration)
    else
      (acquired ++
       (if o.enableMicrophone then [Resource.microphoneStream] else []) ++
       (if o.enableSystemAudio then [Resource.systemAudioStream] else []),
       .ok ())

/-- The observable actions of one `stop()` call, in execution order.
`emit*` actions are events emitted on the `EventEmitter`; the others are
the teardown steps themselves. -/
inductive StopAction
  | clearIntervals
  | finalizeRecording
  | emitRecordingStopped
  | emitSessionTranscript
  | emitError
  | stopAudioStreams
  | stopSnippetPipeline
  | stopSessionPipeline
  | deleteRecordingFile
  | emitStopped
deriving DecidableEq, Repr

/-- Which components exist and which teardown steps are made to fail in a
given `stop()` scenario. -/
structure StopConfig where
  hasSessionRecorder : Bool
  hasSessionPipeline : Bool
  hasSnippetPipeline : Bool
  hasMicrophoneStream : Bool
  hasSystemAudioStream : Bool
  autoCleanup : Bool
  /-- `this._sessionRecorder.stop()` rejects. -/
  recorderStopFails : Bool
  /-- `processFinalSession` throws (file read or engine error). -/
  processFinalFails : Bool
  /-- engine result inside a successful `processFinalSession`. -/
  engineResult : Option EngineResult
  micStreamStopFails : Bool
  sysStreamStopFails : Bool
  stopAllStreamsFails : Bool
  snippetStopFails : Bool
  sessionStopFails : Bool
  deleteRecordingFails : Bool
deriving DecidableEq, Repr

/-- `AudioTranscriber.stop()` for a running transcriber with no concurrent
stop in progress.  Returns the action trace, the collected
`{step, error}` labels, and whether `stop()` itself threw.  Every fallible
step of the source sits inside its own `try`/`catch` (or `.catch`), so the
outer catch-all never fires in these scenarios and the third component is
`false`; per-step failures only add a label (and, for the two critical
recording/transcript steps, an `error` event). -/
def stopRun (c : StopConfig) : List StopAction × List String × Bool :=
  let critical :=
    if c.hasSessionRecorder = true ∧ c.hasSessionPipeline = true then
      if c.recorderStopFails then
        (([StopAction.emitError], ["stop recording"]), false)
      else
        let finalize :=
          if c.processFinalFails then
            ([StopAction.emitError], ["process session transcript"])
          else
            match c.engineResult with
            | none => ([], [])
            | some _ => ([StopAction.emitSessionTranscript], [])
        ((StopAction.finalizeRecording :: StopAction.emitRecordingStopped ::
          finalize.1, finalize.2), true)
    else (([], []), false)
  let recordingMetadataAvailable := critical.2
  let streamErrors :=
    (if c.hasMicrophoneStream = true ∧ c.micStreamStopFails = true then
       ["stop microphone stream"] else []) ++
    (if c.hasSystemAudioStream = true ∧ c.sysStreamStopFails = true then
       ["stop system audio stream"] else []) ++
    (if c.stopAllStreamsFails then ["stop all audio streams"] else [])
  let snippet :=
    if c.hasSnippetPipeline then
      ([StopAction.stopSnippetPipeline],
       if c.snippetStopFails then ["stop snippet pipeline"] else [])
    else ([], [])
  let session :=
    if c.hasSessionPipeline then
      ([StopAction.stopSessionPipeline],
       if c.sessionStopFails then ["stop session pipeline"] else [])
    else ([], [])
  let deletion :=
    if c.hasSessionRecorder = true ∧ recordingMetadataAvailable = true ∧
       c.autoCleanup = true then
      ([StopAction.deleteRecordingFile],
       if c.deleteRecordingFails then ["delete recording file"] else [])
    else ([], [])
  (StopAction.clearIntervals :: critical.1.1 ++ [StopAction.stopAudioStreams] ++
     snippet.1 ++ session.1 ++ deletion.1 ++ [StopAction.emitStopped],
   critical.1.2 ++ streamErrors ++ snippet.2 ++ session.2 ++ deletion.2,
   false)

end AudioTranscriber

/-- The 32 header bytes strictly between the RIFF-size field (offset 4..8)
and the data-size field (offset 40..44); both header patches of
`updateWavHeader` leave them untouched. -/
def SessionRecorder.wavMid (sampleRate channels bitDepth : Nat) : List Nat :=
  [87, 65, 86, 69] ++ [102, 109, 116, 32] ++ le32 16 ++ le16 1 ++
  le16 channels ++ le32 sampleRate ++
  le32 (sampleRate * channels * (bitDepth / 8)) ++
  le16 (channels * (bitDepth / 8)) ++ le16 bitDepth ++ [100, 97, 116, 97]

/-! # Theorems -/

/-! ## Claim C5: snippet queue overflow drops the oldest item -/

theorem enqueueWindow_length_le (q : List SnippetPipeline.QueueItem)
    (w : SnippetPipeline.QueueItem) (hq : q.length ≤ 3) :
    (SnippetPipeline.enqueueWindow q w).length ≤ 3 := by
  unfold SnippetPipeline.enqueueWindow
  split <;> simp <;> omega

theorem foldl_enqueueWindow_length_le (q : List SnippetPipeline.QueueItem)
    (hq : q.length ≤ 3) (ws : List SnippetPipeline.QueueItem) :
    (ws.foldl SnippetPipeline.enqueueWindow q).length ≤ 3 := by
  induction ws generalizing q with
  | nil => simpa using hq
  | cons w ws ih =>
    simpa using ih _ (enqueueWindow_length_le q w hq)

/-- Claim C5: whenever a new window becomes ready while the snippet
processing queue already holds its capacity of 3 items, exactly the oldest
queued item is removed and the new window is appended; the newest window
is always the last element of the queue (never the one dropped), and the
queue length never exceeds 3 — both for a single enqueue from a queue
within capacity and along any sequence of enqueues from the empty queue
`start()` installs. -/
theorem snippet_queue_drop_oldest (q : List SnippetPipeline.QueueItem)
    (w : SnippetPipeline.QueueItem) (hq : q.length ≤ 3) :
    (q.length = 3 → SnippetPipeline.enqueueWindow q w = q.drop 1 ++ [w]) ∧
    (SnippetPipeline.enqueueWindow q w).getLast? = some w ∧
    (SnippetPipeline.enqueueWindow q w).length ≤ 3 ∧
    (∀ ws : List SnippetPipeline.QueueItem,
      (ws.foldl SnippetPipeline.enqueueWindow
        SnippetPipeline.startState.processingQueue).length ≤ 3) := by
  refine ⟨?_, ?_, enqueueWindow_length_le q w hq, ?_⟩
  · intro h3
    unfold SnippetPipeline.enqueueWindow
    simp [h3]
  · unfold SnippetPipeline.enqueueWindow
    split <;> simp
  · intro ws
    exact foldl_enqueueWindow_length_le _ (by simp [SnippetPipeline.startState]) ws

/-- Witness for `snippet_queue_drop_oldest` at a concrete full queue. -/
theorem snippet_queue_drop_oldest_witness :
    ([⟨[0], .microphone, 0⟩, ⟨[1], .microphone, 1⟩,
      ⟨[2], .microphone, 2⟩] : List SnippetPipeline.QueueItem).length ≤ 3 ∧
    (([⟨[0], .microphone, 0⟩, ⟨[1], .microphone, 1⟩,
       ⟨[2], .microphone, 2⟩] : List SnippetPipeline.QueueItem).length = 3 →
      SnippetPipeline.enqueueWindow
        [⟨[0], .microphone, 0⟩, ⟨[1], .microphone, 1⟩, ⟨[2], .microphone, 2⟩]
        ⟨[9], .microphone, 9⟩ =
      ([⟨[0], .microphone, 0⟩, ⟨[1], .microphone, 1⟩,
        ⟨[2], .microphone, 2⟩] : List SnippetPipeline.QueueItem).drop 1 ++
        [⟨[9], .microphone, 9⟩]) ∧
    (SnippetPipeline.enqueueWindow
      [⟨[0], .microphone, 0⟩, ⟨[1], .microphone, 1⟩, ⟨[2], .microphone, 2⟩]
      ⟨[9], .microphone, 9⟩).getLast? = some ⟨[9], .microphone, 9⟩ ∧
    (SnippetPipeline.enqueueWindow
      [⟨[0], .microphone, 0⟩, ⟨[1], .microphone, 1⟩, ⟨[2], .microphone, 2⟩]
      ⟨[9], .microphone, 9⟩).length ≤ 3 ∧
    (∀ ws : List SnippetPipeline.QueueItem,
      (ws.foldl SnippetPipeline.enqueueWindow
        SnippetPipeline.startState.processingQueue).length ≤ 3) :=
  ⟨by decide,
   snippet_queue_drop_oldest
     [⟨[0], .microphone, 0⟩, ⟨[1], .microphone, 1⟩, ⟨[2], .microphone, 2⟩]
     ⟨[9], .microphone, 9⟩ (by decide)⟩

/-! ## Claim C7: null/empty engine result emits no session transcript -/

/-- Claim C7: when the session engine returns a null result for the
recording's payload, `processFinalSession` returns successfully without
emitting any `SessionTranscript` event; and an empty transcription is
delivered by the engines as exactly that null (`vosk` and `whisper` both
map empty text to `null` rather than to an empty-text result). -/
theorem session_null_result_no_emit :
    (∀ cfg : SessionPipeline.Config,
      SessionPipeline.processFinalSession cfg true none = .ok []) ∧
    (∀ confidence engineThreshold : ℚ,
      voskFinishResult [] confidence engineThreshold = none) ∧
    (∀ confidence : ℚ, whisperFinishResult [] confidence = none) := by
  refine ⟨fun cfg => rfl, fun confidence engineThreshold => rfl,
    fun confidence => ?_⟩
  simp [whisperFinishResult]

/-! ## Claim C4: snippet indices are exactly 0, 1, 2, … -/

theorem processChunkRun_indices (threshold : ℚ)
    (results : List (Option EngineResult)) (i : Nat) :
    (SnippetPipeline.processChunkRun threshold i results).2.map
        SnippetPipeline.SnippetEvent.snippetIndex =
      List.range' i
        (SnippetPipeline.processChunkRun threshold i results).2.length ∧
    (SnippetPipeline.processChunkRun threshold i results).1 =
      i + (SnippetPipeline.processChunkRun threshold i results).2.length := by
  induction results generalizing i with
  | nil => simp [SnippetPipeline.processChunkRun]
  | cons r rs ih =>
    rcases r with _ | r
    · simpa [SnippetPipeline.processChunkRun, SnippetPipeline.processChunk]
        using ih i
    · by_cases htext : jsTrim r.text ≠ []
      · by_cases hconf : threshold ≤ r.confidence
        · have := ih (i + 1)
          simp [SnippetPipeline.processChunkRun, SnippetPipeline.processChunk,
            htext, hconf] at this ⊢
          obtain ⟨h1, h2⟩ := this
          refine ⟨?_, by omega⟩
          rw [List.range'_succ, h1]
        · simpa [SnippetPipeline.processChunkRun,
            SnippetPipeline.processChunk, htext, hconf] using ih i
      · simpa [SnippetPipeline.processChunkRun,
          SnippetPipeline.processChunk, htext] using ih i

/-- Claim C4: within one run of the snippet pipeline (which `start()`
begins at `_snippetIndex = 0`), the `snippetIndex` values of the emitted
snippets are exactly `0, 1, 2, …` in emission order — no gaps, no
repeats; and a restart reinstalls `startState`, whose index is 0 again. -/
theorem snippet_index_monotone (threshold : ℚ)
    (results : List (Option EngineResult)) :
    (SnippetPipeline.processChunkRun threshold
        SnippetPipeline.startState.snippetIndex results).2.map
        SnippetPipeline.SnippetEvent.snippetIndex =
      List.range
        (SnippetPipeline.processChunkRun threshold
          SnippetPipeline.startState.snippetIndex results).2.length ∧
    SnippetPipeline.startState.snippetIndex = 0 := by
  have h := processChunkRun_indices threshold results 0
  constructor
  · rw [List.range_eq_range']
    simpa [SnippetPipeline.startState] using h.1
  · rfl

/-! ## Claim C8: per-pipeline confidence filtering -/

/-- Counterexample to claim C8 as stated: with the default session
threshold 0.7, an engine result of confidence 0 (strictly below the
threshold) still causes `processFinalSession` to emit a
`SessionTranscript` — the session pipeline warns but does not filter. -/
theorem session_threshold_cex :
    SessionPipeline.processFinalSession (SessionPipeline.mkConfig none) true
        (some { text := ['h', 'i'], confidence := 0 }) =
      .ok [{ text := ['h', 'i'], confidence := 0, isComplete := true,
             wordCount := 1 }] ∧
    (0 : ℚ) < (SessionPipeline.mkConfig none).confidenceThreshold := by
  constructor
  · rfl
  · norm_num [SessionPipeline.mkConfig]

/-- Claim C8 (amended): only the snippet pipeline filters by its
confidence threshold (default 0.4) — a snippet is emitted exactly when the
result's trimmed text is non-empty and its confidence is at least the
threshold; the session pipeline compares against its own threshold
(default 0.7) but merely logs a warning and emits the `SessionTranscript`
regardless of the comparison's outcome. -/
theorem session_vs_snippet_threshold (cfg : SessionPipeline.Config)
    (r : EngineResult) (threshold : ℚ) (idx : Nat) :
    SessionPipeline.processFinalSession cfg true (some r) =
      .ok [{ text := r.text, confidence := r.confidence, isComplete := true,
             wordCount := countWords r.text }] ∧
    ((SnippetPipeline.processChunk threshold idx (some r)).2 ≠ [] ↔
      (jsTrim r.text ≠ [] ∧ threshold ≤ r.confidence)) ∧
    (SessionPipeline.mkConfig none).confidenceThreshold = 7 / 10 ∧
    (SnippetPipeline.mkConfig none none).confidenceThreshold = 2 / 5 := by
  refine ⟨rfl, ?_, rfl, rfl⟩
  unfold SnippetPipeline.processChunk
  by_cases htext : jsTrim r.text ≠ [] <;>
    by_cases hconf : threshold ≤ r.confidence <;>
    simp [htext, hconf]

/-! ## Claim C3: snippet windowing -/

theorem processAudioRun_nil (interval : Nat) (st : SnippetPipeline.State) :
    SnippetPipeline.processAudioRun interval st [] = (st, []) := rfl

theorem processAudioRun_cons (interval : Nat) (st : SnippetPipeline.State)
    (chunk : List Nat) (ts : Nat) (rest : List (List Nat × Nat)) :
    SnippetPipeline.processAudioRun interval st ((chunk, ts) :: rest) =
      ((SnippetPipeline.processAudioRun interval
          (SnippetPipeline.processAudio interval st chunk .microphone ts).1 rest).1,
       (SnippetPipeline.processAudio interval st chunk .microphone ts).2.toList ++
         (SnippetPipeline.processAudioRun interval
           (SnippetPipeline.processAudio interval st chunk .microphone ts).1 rest).2) :=
  rfl

theorem processAudio_flush (interval : Nat) (st : SnippetPipeline.State)
    (c : List Nat) (src : AudioSource) (ts : Nat)
    (h : 32000 * interval ≤ (st.audioBuffer ++ c).length) :
    SnippetPipeline.processAudio interval st c src ts =
      ({ st with
          audioBuffer := []
          bufferStartTime := ts
          processingQueue := SnippetPipeline.enqueueWindow st.processingQueue
            ⟨st.audioBuffer ++ c, src,
             if st.bufferStartTime = 0 then ts else st.bufferStartTime⟩ },
       some ⟨st.audioBuffer ++ c, src,
             if st.bufferStartTime = 0 then ts else st.bufferStartTime⟩) := by
  unfold SnippetPipeline.processAudio
  rw [if_pos h]

theorem processAudio_flush_ofEmpty (interval : Nat) (st : SnippetPipeline.State)
    (hst : st.audioBuffer = []) (c : List Nat) (src : AudioSource) (ts : Nat)
    (h : 32000 * interval ≤ c.length) :
    SnippetPipeline.processAudio interval st c src ts =
      ({ st with
          audioBuffer := []
          bufferStartTime := ts
          processingQueue := SnippetPipeline.enqueueWindow st.processingQueue
            ⟨c, src, if st.bufferStartTime = 0 then ts else st.bufferStartTime⟩ },
       some ⟨c, src, if st.bufferStartTime = 0 then ts else st.bufferStartTime⟩) := by
  have hlen : 32000 * interval ≤ (st.audioBuffer ++ c).length := by
    rw [hst, List.nil_append]
    exact h
  rw [processAudio_flush interval st c src ts hlen, hst, List.nil_append]

/-- Counterexample to claim C3 as stated: with `intervalSeconds = 1`, feed
one 32000-byte chunk arriving at t = 100 (flushes the first window) and a
second 32000-byte chunk arriving at t = 200 (flushes the second window,
whose first — and only — byte arrived at t = 200).  The second window's
recorded start time is 100, the arrival timestamp of the chunk that
triggered the *previous* flush, not 200, the timestamp of the first byte
of the next window as the claim states. -/
theorem snippet_window_start_time_cex :
    ((SnippetPipeline.processAudioRun 1 SnippetPipeline.startState
        [(List.replicate 32000 0, 100), (List.replicate 32000 0, 200)]).2.map
        SnippetPipeline.QueueItem.timestamp) = [100, 100] ∧
    (100 : Nat) ≠ 200 := by
  refine ⟨?_, by decide⟩
  generalize hgen : List.replicate 32000 (0 : Nat) = c
  have hlen : c.length = 32000 := by rw [← hgen, List.length_replicate]
  have hc : 32000 * 1 ≤ c.length := by
    rw [hlen]
  rw [processAudioRun_cons,
    processAudio_flush_ofEmpty 1 SnippetPipeline.startState rfl c .microphone 100 hc]
  simp only [SnippetPipeline.startState, SnippetPipeline.enqueueWindow]
  have e00 : (((0 : Nat) = 0) = True) := eq_true rfl
  have h30 : (((3 : Nat) ≤ 0) = False) := eq_false (by omega)
  have e1000 : (((100 : Nat) = 0) = False) := eq_false (by omega)
  simp only [e00, h30, if_true, if_false, List.length_nil, List.nil_append]
  rw [processAudioRun_cons,
    processAudio_flush_ofEmpty 1
      ⟨[], 100, 0, [⟨c, .microphone, 100⟩]⟩ rfl c .microphone 200 hc]
  simp only [e1000, if_false, processAudioRun_nil, Option.toList,
    List.map_cons, List.map_nil, List.cons_append, List.nil_append,
    List.append_nil]

theorem processAudio_noflush (interval : Nat) (st : SnippetPipeline.State)
    (c : List Nat) (src : AudioSource) (ts : Nat)
    (h : ¬ 32000 * interval ≤ (st.audioBuffer ++ c).length) :
    SnippetPipeline.processAudio interval st c src ts =
      ({ st with
          audioBuffer := st.audioBuffer ++ c
          bufferStartTime :=
            if st.bufferStartTime = 0 then ts else st.bufferStartTime },
       none) := by
  unfold SnippetPipeline.processAudio
  rw [if_neg h]

theorem processAudioRun_flatten (interval : Nat) (st : SnippetPipeline.State)
    (feeds : List (List Nat × Nat)) :
    ((SnippetPipeline.processAudioRun interval st feeds).2.map
        SnippetPipeline.QueueItem.data).flatten ++
      (SnippetPipeline.processAudioRun interval st feeds).1.audioBuffer =
    st.audioBuffer ++ (feeds.map Prod.fst).flatten := by
  induction feeds generalizing st with
  | nil => simp [processAudioRun_nil]
  | cons f rest ih =>
    obtain ⟨chunk, ts⟩ := f
    rw [processAudioRun_cons]
    by_cases h : 32000 * interval ≤ (st.audioBuffer ++ chunk).length
    · rw [processAudio_flush interval st chunk .microphone ts h]
      simp only [Option.toList, List.append_eq, List.nil_append, List.map_cons,
        List.flatten_cons, List.map, List.cons_append, List.append_assoc]
      rw [ih]
      simp
    · rw [processAudio_noflush interval st chunk .microphone ts h]
      simp only [Option.toList, List.nil_append, List.map, List.flatten_cons]
      rw [ih]
      simp [List.append_assoc]

theorem processAudioRun_inv (interval : Nat) (st : SnippetPipeline.State)
    (hst : st.audioBuffer.length < 32000 * interval)
    (feeds : List (List Nat × Nat)) :
    (SnippetPipeline.processAudioRun interval st feeds).1.audioBuffer.length <
      32000 * interval ∧
    ∀ w ∈ (SnippetPipeline.processAudioRun interval st feeds).2,
      32000 * interval ≤ w.data.length := by
  induction feeds generalizing st with
  | nil =>
    rw [processAudioRun_nil]
    exact ⟨hst, by simp⟩
  | cons f rest ih =>
    obtain ⟨chunk, ts⟩ := f
    rw [processAudioRun_cons]
    by_cases h : 32000 * interval ≤ (st.audioBuffer ++ chunk).length
    · rw [processAudio_flush interval st chunk .microphone ts h]
      have hnext := ih ({ st with
        audioBuffer := []
        bufferStartTime := ts
        processingQueue := SnippetPipeline.enqueueWindow st.processingQueue
          ⟨st.audioBuffer ++ chunk, .microphone,
           if st.bufferStartTime = 0 then ts else st.bufferStartTime⟩ })
        (by simpa using Nat.lt_of_le_of_lt (Nat.zero_le _) hst)
      refine ⟨hnext.1, ?_⟩
      intro w hw
      simp only [Option.toList, List.cons_append, List.nil_append,
        List.mem_cons] at hw
      rcases hw with hw | hw
      · rw [hw]
        exact h
      · exact hnext.2 w hw
    · rw [processAudio_noflush interval st chunk .microphone ts h]
      have hnext := ih ({ st with
        audioBuffer := st.audioBuffer ++ chunk
        bufferStartTime :=
          if st.bufferStartTime = 0 then ts else st.bufferStartTime })
        (by simpa using Nat.lt_of_not_le h)
      refine ⟨hnext.1, ?_⟩
      intro w hw
      simp only [Option.toList, List.nil_append] at hw
      exact hnext.2 w hw

/-- Claim C3 (amended): for every feed sequence, (a) each flushed window
is the entire buffer accumulated since the previous flush — their
concatenation plus the residual buffer reproduces all fed bytes; (b) every
flushed window has reached the interval threshold
(`length / 2 / 16000 ≥ intervalSeconds`, with the source's hardcoded
16-bit 16 kHz arithmetic, which coincides with the claim's formula at the
pipeline's fixed audio parameters); (c) the residual buffer is always
strictly below the threshold, so a window is flushed exactly at the chunk
whose arrival first reaches the threshold, one window per crossing;
(d) a flush empties the buffer; and (e) the next window's recorded start
time is the arrival timestamp of the chunk that triggered the flush (not
the timestamp of the first byte of the next window). -/
theorem snippet_windowing_amended (intervalSeconds : Nat)
    (hpos : 0 < intervalSeconds) (feeds : List (List Nat × Nat)) :
    (((SnippetPipeline.processAudioRun intervalSeconds
          SnippetPipeline.startState feeds).2.map
        SnippetPipeline.QueueItem.data).flatten ++
      (SnippetPipeline.processAudioRun intervalSeconds
        SnippetPipeline.startState feeds).1.audioBuffer =
      (feeds.map Prod.fst).flatten) ∧
    (∀ w ∈ (SnippetPipeline.processAudioRun intervalSeconds
        SnippetPipeline.startState feeds).2,
      32000 * intervalSeconds ≤ w.data.length) ∧
    ((SnippetPipeline.processAudioRun intervalSeconds
        SnippetPipeline.startState feeds).1.audioBuffer.length <
      32000 * intervalSeconds) ∧
    (∀ (st : SnippetPipeline.State) (c : List Nat) (src : AudioSource)
        (ts : Nat),
      ((SnippetPipeline.processAudio intervalSeconds st c src ts).2.isSome ↔
        32000 * intervalSeconds ≤ (st.audioBuffer ++ c).length)) ∧
    (∀ (st : SnippetPipeline.State) (c : List Nat) (src : AudioSource)
        (ts : Nat) (w : SnippetPipeline.QueueItem),
      (SnippetPipeline.processAudio intervalSeconds st c src ts).2 = some w →
        w.data = st.audioBuffer ++ c ∧
        (SnippetPipeline.processAudio intervalSeconds st c src ts).1.audioBuffer
          = [] ∧
        (SnippetPipeline.processAudio intervalSeconds st c src ts).1.bufferStartTime
          = ts ∧
        w.timestamp =
          (if st.bufferStartTime = 0 then ts else st.bufferStartTime)) := by
  have hb : 0 < 32000 * intervalSeconds :=
    Nat.mul_pos (by omega) hpos
  have hinv := processAudioRun_inv intervalSeconds SnippetPipeline.startState
    (by simpa [SnippetPipeline.startState] using hb) feeds
  refine ⟨?_, hinv.2, hinv.1, ?_, ?_⟩
  · simpa [SnippetPipeline.startState] using
      processAudioRun_flatten intervalSeconds SnippetPipeline.startState feeds
  · intro st c src ts
    by_cases h : 32000 * intervalSeconds ≤ (st.audioBuffer ++ c).length
    · rw [processAudio_flush intervalSeconds st c src ts h]
      simpa using h
    · rw [processAudio_noflush intervalSeconds st c src ts h]
      simpa using h
  · intro st c src ts w hw
    by_cases h : 32000 * intervalSeconds ≤ (st.audioBuffer ++ c).length
    · rw [processAudio_flush intervalSeconds st c src ts h] at hw ⊢
      simp only [Option.some.injEq] at hw
      subst hw
      exact ⟨rfl, rfl, rfl, rfl⟩
    · rw [processAudio_noflush intervalSeconds st c src ts h] at hw
      simp at hw

/-- Witness for `snippet_windowing_amended` at `intervalSeconds = 1` and a
single fed chunk. -/
theorem snippet_windowing_amended_witness :
    0 < 1 ∧
    ((((SnippetPipeline.processAudioRun 1
          SnippetPipeline.startState [([2], 7)]).2.map
        SnippetPipeline.QueueItem.data).flatten ++
      (SnippetPipeline.processAudioRun 1
        SnippetPipeline.startState [([2], 7)]).1.audioBuffer =
      (([([2], 7)] : List (List Nat × Nat)).map Prod.fst).flatten) ∧
    (∀ w ∈ (SnippetPipeline.processAudioRun 1
        SnippetPipeline.startState [([2], 7)]).2,
      32000 * 1 ≤ w.data.length) ∧
    ((SnippetPipeline.processAudioRun 1
        SnippetPipeline.startState [([2], 7)]).1.audioBuffer.length <
      32000 * 1) ∧
    (∀ (st : SnippetPipeline.State) (c : List Nat) (src : AudioSource)
        (ts : Nat),
      ((SnippetPipeline.processAudio 1 st c src ts).2.isSome ↔
        32000 * 1 ≤ (st.audioBuffer ++ c).length)) ∧
    (∀ (st : SnippetPipeline.State) (c : List Nat) (src : AudioSource)
        (ts : Nat) (w : SnippetPipeline.QueueItem),
      (SnippetPipeline.processAudio 1 st c src ts).2 = some w →
        w.data = st.audioBuffer ++ c ∧
        (SnippetPipeline.processAudio 1 st c src ts).1.audioBuffer = [] ∧
        (SnippetPipeline.processAudio 1 st c src ts).1.bufferStartTime = ts ∧
        w.timestamp =
          (if st.bufferStartTime = 0 then ts else st.bufferStartTime))) :=
  ⟨by decide, snippet_windowing_amended 1 (by decide) [([2], 7)]⟩

/-! ## Claim C9: max-duration cutoff inside the recorder -/

/-- Claim C9: once the elapsed wall-clock time since `start()` strictly
exceeds the configured `maxDuration` (seconds, compared against
milliseconds as `(now - startTime) / 1000 > maxDuration`), a `writeChunk`
call arriving at the recorder leaves the file bytes and the byte counter
unchanged and itself triggers the recorder's stop (`this.stop()` is
invoked from inside `writeChunk`, no external timer involved). -/
theorem recorder_max_duration_cutoff (cfg : SessionRecorder.RecordingConfig)
    (st : SessionRecorder.State) (now : Nat) (audioData : List Nat)
    (maxDur : Nat) (hrec : st.isRecording = true)
    (hmax : cfg.maxDuration = some maxDur)
    (helapsed : 1000 * maxDur < now - st.startTime) :
    SessionRecorder.writeChunk cfg st now audioData =
      .ok { st with stopTriggered := true } ∧
    ({ st with stopTriggered := true } : SessionRecorder.State).fileBytes =
      st.fileBytes ∧
    ({ st with stopTriggered := true } : SessionRecorder.State).bytesWritten =
      st.bytesWritten ∧
    ({ st with stopTriggered := true } : SessionRecorder.State).stopTriggered =
      true := by
  refine ⟨?_, rfl, rfl, rfl⟩
  unfold SessionRecorder.writeChunk
  rw [hrec, hmax]
  simp [helapsed]

/-- Witness for `recorder_max_duration_cutoff`: a recorder started at t=0
with `maxDuration = 1` s receives a chunk at t=1001 ms. -/
theorem recorder_max_duration_cutoff_witness :
    (SessionRecorder.start 16000 1 16 0).isRecording = true ∧
    (some 1 : Option Nat) = some 1 ∧
    1000 * 1 < 1001 - (SessionRecorder.start 16000 1 16 0).startTime ∧
    SessionRecorder.writeChunk ⟨some 1, false⟩
        (SessionRecorder.start 16000 1 16 0) 1001 [5, 6] =
      .ok { SessionRecorder.start 16000 1 16 0 with stopTriggered := true } :=
  ⟨rfl, rfl, by decide,
   (recorder_max_duration_cutoff ⟨some 1, false⟩
     (SessionRecorder.start 16000 1 16 0) 1001 [5, 6] 1 rfl rfl
     (by decide)).1⟩

/-! ## Claim C2: WAV round-trip and crash-safe rename -/

theorem decodeLE4_le32 (n : Nat) (h : n < 4294967296) :
    decodeLE4 (le32 n) = n := by
  simp only [le32, decodeLE4]
  omega

theorem replaceFirstOcc_dotless (s : List Char) (hs : ('.' : Char) ∉ s) :
    replaceFirstOcc SessionRecorder.pendingSuffix SessionRecorder.finalSuffix
      (s ++ SessionRecorder.pendingSuffix) = s ++ SessionRecorder.finalSuffix := by
  induction s with
  | nil =>
    show replaceFirstOcc _ _ ('.' :: _) = _
    rw [replaceFirstOcc]
    simp [SessionRecorder.pendingSuffix, SessionRecorder.finalSuffix]
  | cons c cs ih =>
    have hc : c ≠ '.' := by
      intro hcc
      exact hs (by simp [hcc])
    have hcs : ('.' : Char) ∉ cs := fun hmem => hs (by simp [hmem])
    show replaceFirstOcc _ _ (c :: (cs ++ _)) = _
    rw [replaceFirstOcc]
    have hnp : ¬ SessionRecorder.pendingSuffix.isPrefixOf
        (c :: (cs ++ SessionRecorder.pendingSuffix)) = true := by
      show ¬ List.isPrefixOf ('.' :: _) (c :: _) = true
      simp only [List.isPrefixOf, Bool.and_eq_true, beq_iff_eq]
      intro hand
      exact hc hand.1.symm
    simp only [hnp, if_false, ih hcs, List.cons_append, Bool.false_eq_true]

theorem writeChunks_noCutoff (auto : Bool) (now : Nat)
    (chunks : List (List Nat)) (st : SessionRecorder.State)
    (hrec : st.isRecording = true) :
    SessionRecorder.writeChunks ⟨none, auto⟩ st now chunks =
      .ok { st with
              fileBytes := st.fileBytes ++ chunks.flatten
              bytesWritten := st.bytesWritten + (chunks.map List.length).sum } := by
  induction chunks generalizing st with
  | nil =>
    simp [SessionRecorder.writeChunks]
  | cons c cs ih =>
    rw [SessionRecorder.writeChunks]
    have hw : SessionRecorder.writeChunk ⟨none, auto⟩ st now c =
        .ok { st with
                fileBytes := st.fileBytes ++ c
                bytesWritten := st.bytesWritten + c.length } := by
      simp [SessionRecorder.writeChunk, hrec]
    rw [hw]
    show SessionRecorder.writeChunks ⟨none, auto⟩ _ now cs = _
    rw [ih { st with
              fileBytes := st.fileBytes ++ c
              bytesWritten := st.bytesWritten + c.length } hrec]
    simp [List.append_assoc]
    omega

theorem updateWavHeader_decomp (sampleRate channels bitDepth K : Nat) :
    SessionRecorder.updateWavHeader K
        (SessionRecorder.wavHeader sampleRate channels bitDepth) =
      SessionPipeline.riffTag ++ le32 (K + 36) ++
        SessionRecorder.wavMid sampleRate channels bitDepth ++ le32 K := rfl

theorem wavMid_length (sampleRate channels bitDepth : Nat) :
    (SessionRecorder.wavMid sampleRate channels bitDepth).length = 32 := rfl

theorem wavHeader_length (sampleRate channels bitDepth : Nat) :
    (SessionRecorder.wavHeader sampleRate channels bitDepth).length = 44 := rfl

theorem writeAt_append_left (buf rest patch : List Nat) (off : Nat)
    (h : off + patch.length ≤ buf.length) :
    writeAt (buf ++ rest) off patch = writeAt buf off patch ++ rest := by
  unfold writeAt
  rw [List.take_append_of_le_length (by omega),
    List.drop_append_of_le_length h]
  simp [List.append_assoc]

theorem updateWavHeader_append (sampleRate channels bitDepth n : Nat)
    (data : List Nat) :
    SessionRecorder.updateWavHeader n
        (SessionRecorder.wavHeader sampleRate channels bitDepth ++ data) =
      (SessionPipeline.riffTag ++ le32 (n + 36) ++
        SessionRecorder.wavMid sampleRate channels bitDepth ++ le32 n) ++
        data := by
  unfold SessionRecorder.updateWavHeader
  rw [writeAt_append_left _ _ _ _ (by rw [wavHeader_length]; simp [le32]),
    writeAt_append_left _ _ _ _
      (by rw [show ((writeAt (SessionRecorder.wavHeader sampleRate channels
        bitDepth) 4 (le32 (n + 36))).length) = 44 from rfl]; simp [le32])]
  rw [← SessionRecorder.updateWavHeader, updateWavHeader_decomp]

/-- Claim C2: for every sequence of `writeChunk` calls totalling K bytes
of PCM delivered while recording (K small enough for the 32-bit RIFF size
fields, as Node's `writeUInt32LE` itself requires), the finalized file
after `SessionRecorder.stop()` is a RIFF/WAVE container whose RIFF size
field (bytes 4..8) decodes to K + 36 — the total file size minus 8 —
whose data-chunk size field (bytes 40..44) decodes to K, and whose data
payload (bytes from offset 44) is byte-identical to the concatenation of
the written chunks; on success the file is renamed from
`{sessionId}.partial.wav` to `{sessionId}.wav` (session ids generated by
the source contain no dot). -/
theorem wav_roundtrip (sampleRate channels bitDepth startTime now : Nat)
    (auto : Bool) (sessionId : List Char) (chunks : List (List Nat))
    (hK : (chunks.map List.length).sum + 36 < 4294967296)
    (hdot : ('.' : Char) ∉ sessionId) :
    ∃ st : SessionRecorder.State,
      SessionRecorder.writeChunks ⟨none, auto⟩
          (SessionRecorder.start sampleRate channels bitDepth startTime)
          now chunks = .ok st ∧
      (SessionRecorder.stop st sessionId).1.length =
        (chunks.map List.length).sum + 44 ∧
      readUInt32LE (SessionRecorder.stop st sessionId).1 4 =
        .ok ((chunks.map List.length).sum + 36) ∧
      readUInt32LE (SessionRecorder.stop st sessionId).1 4 =
        .ok ((SessionRecorder.stop st sessionId).1.length - 8) ∧
      readUInt32LE (SessionRecorder.stop st sessionId).1 40 =
        .ok ((chunks.map List.length).sum) ∧
      (SessionRecorder.stop st sessionId).1.drop 44 = chunks.flatten ∧
      (SessionRecorder.stop st sessionId).2 =
        sessionId ++ SessionRecorder.finalSuffix := by
  have hzero : (SessionRecorder.start sampleRate channels bitDepth
      startTime).bytesWritten + (chunks.map List.length).sum =
      (chunks.map List.length).sum := by
    simp [SessionRecorder.start]
  have hstop1 : (SessionRecorder.stop
      { SessionRecorder.start sampleRate channels bitDepth startTime with
          fileBytes := (SessionRecorder.start sampleRate channels bitDepth
            startTime).fileBytes ++ chunks.flatten
          bytesWritten := (SessionRecorder.start sampleRate channels bitDepth
            startTime).bytesWritten + (chunks.map List.length).sum }
      sessionId).1 =
      (SessionPipeline.riffTag ++ le32 ((chunks.map List.length).sum + 36) ++
        SessionRecorder.wavMid sampleRate channels bitDepth ++
        le32 ((chunks.map List.length).sum)) ++ chunks.flatten := by
    show SessionRecorder.updateWavHeader _ _ = _
    rw [hzero,
      show (SessionRecorder.start sampleRate channels bitDepth
        startTime).fileBytes =
        SessionRecorder.wavHeader sampleRate channels bitDepth from rfl]
    exact updateWavHeader_append sampleRate channels bitDepth _ _
  have hAlen : (SessionPipeline.riffTag ++
      le32 ((chunks.map List.length).sum + 36) ++
      SessionRecorder.wavMid sampleRate channels bitDepth ++
      le32 ((chunks.map List.length).sum)).length = 44 := rfl
  have hlen : ((SessionPipeline.riffTag ++
      le32 ((chunks.map List.length).sum + 36) ++
      SessionRecorder.wavMid sampleRate channels bitDepth ++
      le32 ((chunks.map List.length).sum)) ++ chunks.flatten).length =
      (chunks.map List.length).sum + 44 := by
    rw [List.length_append, hAlen, List.length_flatten]
    omega
  have hfile4 : readUInt32LE ((SessionPipeline.riffTag ++
      le32 ((chunks.map List.length).sum + 36) ++
      SessionRecorder.wavMid sampleRate channels bitDepth ++
      le32 ((chunks.map List.length).sum)) ++ chunks.flatten) 4 =
      .ok ((chunks.map List.length).sum + 36) := by
    unfold readUInt32LE
    rw [if_pos (by rw [hlen]; omega)]
    simp only [List.append_assoc]
    rw [List.drop_left' (show SessionPipeline.riffTag.length = 4 from rfl),
      List.take_left' (show
        (le32 ((chunks.map List.length).sum + 36)).length = 4 from rfl),
      decodeLE4_le32 _ hK]
  have hfile40 : readUInt32LE ((SessionPipeline.riffTag ++
      le32 ((chunks.map List.length).sum + 36) ++
      SessionRecorder.wavMid sampleRate channels bitDepth ++
      le32 ((chunks.map List.length).sum)) ++ chunks.flatten) 40 =
      .ok ((chunks.map List.length).sum) := by
    unfold readUInt32LE
    rw [if_pos (by rw [hlen]; omega)]
    rw [show (SessionPipeline.riffTag ++
        le32 ((chunks.map List.length).sum + 36) ++
        SessionRecorder.wavMid sampleRate channels bitDepth ++
        le32 ((chunks.map List.length).sum)) ++ chunks.flatten =
      (SessionPipeline.riffTag ++
        le32 ((chunks.map List.length).sum + 36) ++
        SessionRecorder.wavMid sampleRate channels bitDepth) ++
        (le32 ((chunks.map List.length).sum) ++ chunks.flatten) from by
      simp [List.append_assoc]]
    rw [List.drop_left' (show (SessionPipeline.riffTag ++
        le32 ((chunks.map List.length).sum + 36) ++
        SessionRecorder.wavMid sampleRate channels bitDepth).length = 40
        from rfl),
      List.take_append_of_le_length (by simp [le32]),
      show (le32 ((chunks.map List.length).sum)).take 4 =
        le32 ((chunks.map List.length).sum) from by simp [le32],
      decodeLE4_le32 _ (by omega)]
  have hdrop : ((SessionPipeline.riffTag ++
      le32 ((chunks.map List.length).sum + 36) ++
      SessionRecorder.wavMid sampleRate channels bitDepth ++
      le32 ((chunks.map List.length).sum)) ++ chunks.flatten).drop 44 =
      chunks.flatten := List.drop_left' hAlen
  refine ⟨_, writeChunks_noCutoff auto now chunks
    (SessionRecorder.start sampleRate channels bitDepth startTime) rfl,
    ?_, ?_, ?_, ?_, ?_, ?_⟩
  · rw [hstop1, hlen]
  · rw [hstop1, hfile4]
  · rw [hstop1, hfile4, hlen,
      show (chunks.map List.length).sum + 44 - 8 =
        (chunks.map List.length).sum + 36 from by omega]
  · rw [hstop1, hfile40]
  · rw [hstop1, hdrop]
  · show replaceFirstOcc SessionRecorder.pendingSuffix
      SessionRecorder.finalSuffix (sessionId ++ SessionRecorder.pendingSuffix)
      = sessionId ++ SessionRecorder.finalSuffix
    exact replaceFirstOcc_dotless sessionId hdot

/-- Witness for `wav_roundtrip`: two chunks totalling 3 bytes, session id
`s`. -/
theorem wav_roundtrip_witness :
    (([[1, 2], [3]] : List (List Nat)).map List.length).sum + 36 <
      4294967296 ∧
    ('.' : Char) ∉ (['s'] : List Char) ∧
    ∃ st : SessionRecorder.State,
      SessionRecorder.writeChunks ⟨none, false⟩
          (SessionRecorder.start 16000 1 16 0) 0 [[1, 2], [3]] = .ok st ∧
      (SessionRecorder.stop st ['s']).1.length =
        (([[1, 2], [3]] : List (List Nat)).map List.length).sum + 44 ∧
      readUInt32LE (SessionRecorder.stop st ['s']).1 4 =
        .ok ((([[1, 2], [3]] : List (List Nat)).map List.length).sum + 36) ∧
      readUInt32LE (SessionRecorder.stop st ['s']).1 4 =
        .ok ((SessionRecorder.stop st ['s']).1.length - 8) ∧
      readUInt32LE (SessionRecorder.stop st ['s']).1 40 =
        .ok ((([[1, 2], [3]] : List (List Nat)).map List.length).sum) ∧
      (SessionRecorder.stop st ['s']).1.drop 44 =
        ([[1, 2], [3]] : List (List Nat)).flatten ∧
      (SessionRecorder.stop st ['s']).2 =
        ['s'] ++ SessionRecorder.finalSuffix :=
  ⟨by decide, by decide,
   wav_roundtrip 16000 1 16 0 0 false ['s'] [[1, 2], [3]]
     (by decide) (by decide)⟩

/-! ## Claim C10: RIFF/WAVE files without a data chunk -/

/-- Counterexample to claim C10 as stated: a 13-byte buffer that begins
with the RIFF/WAVE signature and whose chunk walk finds no `data` chunk —
the walk reaches offset 12 with only one byte left, so
`readUInt32LE(offset + 4)` throws `ERR_OUT_OF_RANGE` and `readAudioFile`
wraps that into an error instead of returning the bytes from offset 44. -/
theorem read_audio_no_data_cex :
    SessionPipeline.startsRiffWave
        [82, 73, 70, 70, 0, 0, 0, 0, 87, 65, 86, 69, 0] = true ∧
    SessionPipeline.findDataChunk
        [82, 73, 70, 70, 0, 0, 0, 0, 87, 65, 86, 69, 0] 12 =
      .error "ERR_OUT_OF_RANGE" ∧
    SessionPipeline.readAudioFile
        [82, 73, 70, 70, 0, 0, 0, 0, 87, 65, 86, 69, 0] =
      .error .audioCaptureFailed ∧
    ([82, 73, 70, 70, 0, 0, 0, 0, 87, 65, 86, 69,
      0] : List Nat).drop 44 = [] := by
  have hwalk : SessionPipeline.findDataChunk
      [82, 73, 70, 70, 0, 0, 0, 0, 87, 65, 86, 69, 0] 12 =
      .error "ERR_OUT_OF_RANGE" := by
    rw [SessionPipeline.findDataChunk]
    simp [readUInt32LE]
  refine ⟨by decide, hwalk, ?_, by decide⟩
  unfold SessionPipeline.readAudioFile
  rw [if_pos (by decide), hwalk]

/-- Claim C10 (amended): for every file buffer that begins with the
RIFF/WAVE signature and in which the chunk walk from offset 12 terminates
normally without finding a `data` chunk (every visited chunk header lies
fully in bounds), `readAudioFile` returns the bytes from offset 44 to the
end of the file; if instead the walk hits a truncated chunk header,
`readUInt32LE` throws and `readAudioFile` returns an error. -/
theorem read_audio_no_data_amended (buf : List Nat)
    (hsig : SessionPipeline.startsRiffWave buf = true)
    (hwalk : SessionPipeline.findDataChunk buf 12 = .ok none) :
    SessionPipeline.readAudioFile buf = .ok (buf.drop 44) := by
  unfold SessionPipeline.readAudioFile
  rw [if_pos hsig, hwalk]

/-- Witness for `read_audio_no_data_amended`: a 50-byte RIFF/WAVE buffer
whose single chunk is `junk` (size 30), leaving no `data` chunk; the walk
ends exactly at the end of the buffer. -/
theorem read_audio_no_data_amended_witness :
    SessionPipeline.startsRiffWave
        ([82, 73, 70, 70, 42, 0, 0, 0, 87, 65, 86, 69, 106, 117, 110, 107,
          30, 0, 0, 0] ++ List.replicate 30 7) = true ∧
    SessionPipeline.findDataChunk
        ([82, 73, 70, 70, 42, 0, 0, 0, 87, 65, 86, 69, 106, 117, 110, 107,
          30, 0, 0, 0] ++ List.replicate 30 7) 12 = .ok none ∧
    SessionPipeline.readAudioFile
        ([82, 73, 70, 70, 42, 0, 0, 0, 87, 65, 86, 69, 106, 117, 110, 107,
          30, 0, 0, 0] ++ List.replicate 30 7) =
      .ok (([82, 73, 70, 70, 42, 0, 0, 0, 87, 65, 86, 69, 106, 117, 110,
            107, 30, 0, 0, 0] ++ List.replicate 30 7).drop 44) := by
  have hsig : SessionPipeline.startsRiffWave
      ([82, 73, 70, 70, 42, 0, 0, 0, 87, 65, 86, 69, 106, 117, 110, 107,
        30, 0, 0, 0] ++ List.replicate 30 7) = true := by decide
  have hwalk : SessionPipeline.findDataChunk
      ([82, 73, 70, 70, 42, 0, 0, 0, 87, 65, 86, 69, 106, 117, 110, 107,
        30, 0, 0, 0] ++ List.replicate 30 7) 12 = .ok none := by
    rw [SessionPipeline.findDataChunk]
    simp [readUInt32LE, decodeLE4, SessionPipeline.dataTag]
    rw [SessionPipeline.findDataChunk]
    simp
  exact ⟨hsig, hwalk, read_audio_no_data_amended _ hsig hwalk⟩

/-! ## Claim C6: configuration validation timing -/

/-- Counterexample to claim C6 as stated: with session transcript and
recording enabled, a valid output directory but neither audio source
enabled, construction-time validation passes, and `start()` raises the
"at least one audio source must be enabled" configuration error only
*after* the session recorder and the session pipeline have been started —
resources were acquired, so a validation-failing `start()` does not leave
"no partial state" (cleanup then runs best-effort). -/
theorem start_validation_cex :
    AudioTranscriber.validateOptions
        ⟨false, false, false, true, true, some ['r']⟩ = .ok () ∧
    AudioTranscriber.startRun ⟨false, false, false, true, true, some ['r']⟩
        true =
      ([AudioTranscriber.Resource.sessionRecorder,
        AudioTranscriber.Resource.sessionPipeline],
       .error .invalidConfiguration) ∧
    ([AudioTranscriber.Resource.sessionRecorder,
      AudioTranscriber.Resource.sessionPipeline] : List _) ≠ [] := by
  refine ⟨rfl, ?_, by decide⟩
  rfl

/-- Claim C6 (amended): the three configuration-shape errors (neither
pipeline enabled; sessionTranscript without recording; recording without a
truthy output directory) are detected synchronously by `validateOptions`
in the *constructor* — before `start()` and before any resource is
acquired — and construction fails exactly on those three conditions; the
fourth error (no audio source enabled) is raised during `start()` only
after the session recorder and the enabled pipelines have already been
started, so that failing `start()` does acquire resources first (and then
runs best-effort cleanup and rethrows). -/
theorem start_validation_amended (o : AudioTranscriber.Options)
    (hmic : o.enableMicrophone = false) (hsys : o.enableSystemAudio = false) :
    (AudioTranscriber.mkAudioTranscriber o = .ok o ↔
      ((o.snippetsEnabled = true ∨ o.sessionTranscriptEnabled = true) ∧
       (o.sessionTranscriptEnabled = true → o.recordingEnabled = true) ∧
       (o.recordingEnabled = true →
         AudioTranscriber.outputDirTruthy o.recordingOutputDir = true))) ∧
    (AudioTranscriber.startRun o true).2 = .error .invalidConfiguration ∧
    (AudioTranscriber.startRun o true).1 =
      (if o.recordingEnabled then [AudioTranscriber.Resource.sessionRecorder]
       else []) ++
      (if o.snippetsEnabled then [AudioTranscriber.Resource.snippetPipeline]
       else []) ++
      (if o.sessionTranscriptEnabled then
        [AudioTranscriber.Resource.sessionPipeline] else []) := by
  refine ⟨?_, ?_, ?_⟩
  · unfold AudioTranscriber.mkAudioTranscriber AudioTranscriber.validateOptions
    rcases o with ⟨mic, sys, snip, sess, rec, dir⟩
    cases snip <;> cases sess <;> cases rec <;>
      cases hdir : AudioTranscriber.outputDirTruthy dir <;>
      simp [hdir]
  · unfold AudioTranscriber.startRun
    rw [if_neg (by simp)]
    rw [if_pos ⟨hmic, hsys⟩]
  · unfold AudioTranscriber.startRun
    rw [if_neg (by simp)]
    rw [if_pos ⟨hmic, hsys⟩]

/-- Witness for `start_validation_amended` at a concrete
no-audio-source configuration with snippets enabled. -/
theorem start_validation_amended_witness :
    (⟨false, false, true, false, false, none⟩ :
      AudioTranscriber.Options).enableMicrophone = false ∧
    (⟨false, false, true, false, false, none⟩ :
      AudioTranscriber.Options).enableSystemAudio = false ∧
    ((AudioTranscriber.mkAudioTranscriber
        ⟨false, false, true, false, false, none⟩ =
        .ok ⟨false, false, true, false, false, none⟩ ↔
      (((⟨false, false, true, false, false, none⟩ :
          AudioTranscriber.Options).snippetsEnabled = true ∨
        (⟨false, false, true, false, false, none⟩ :
          AudioTranscriber.Options).sessionTranscriptEnabled = true) ∧
       ((⟨false, false, true, false, false, none⟩ :
          AudioTranscriber.Options).sessionTranscriptEnabled = true →
         (⟨false, false, true, false, false, none⟩ :
          AudioTranscriber.Options).recordingEnabled = true) ∧
       ((⟨false, false, true, false, false, none⟩ :
          AudioTranscriber.Options).recordingEnabled = true →
         AudioTranscriber.outputDirTruthy
           (⟨false, false, true, false, false, none⟩ :
             AudioTranscriber.Options).recordingOutputDir = true))) ∧
    (AudioTranscriber.startRun
        ⟨false, false, true, false, false, none⟩ true).2 =
      .error .invalidConfiguration ∧
    (AudioTranscriber.startRun
        ⟨false, false, true, false, false, none⟩ true).1 =
      (if (⟨false, false, true, false, false, none⟩ :
          AudioTranscriber.Options).recordingEnabled then
        [AudioTranscriber.Resource.sessionRecorder] else []) ++
      (if (⟨false, false, true, false, false, none⟩ :
          AudioTranscriber.Options).snippetsEnabled then
        [AudioTranscriber.Resource.snippetPipeline] else []) ++
      (if (⟨false, false, true, false, false, none⟩ :
          AudioTranscriber.Options).sessionTranscriptEnabled then
        [AudioTranscriber.Resource.sessionPipeline] else [])) :=
  ⟨rfl, rfl,
   start_validation_amended ⟨false, false, true, false, false, none⟩ rfl rfl⟩

/-! ## Claim C1: guaranteed archival emission in stop() -/

/-- Claim C1: with recording and the session pipeline enabled (here with
snippet pipeline, both streams and auto-cleanup present as well), when the
recording finalizes and `processFinalSession` succeeds with an engine
result, but *every* later cleanup step (stopping the microphone, system
and aggregate audio streams, stopping the snippet pipeline, stopping the
session pipeline, deleting the recording file) fails, `stop()` still:
finalizes the recording and emits the session transcript *before* any of
those cleanup steps, emits exactly one `sessionTranscript` event, emits a
`stopped` event at the very end, collects every per-step error without
rethrowing — `stop()` does not throw. -/
theorem stop_guaranteed_emission (c : AudioTranscriber.StopConfig)
    (r : EngineResult)
    (hrec : c.hasSessionRecorder = true)
    (hsp : c.hasSessionPipeline = true)
    (hsnip : c.hasSnippetPipeline = true)
    (hmic : c.hasMicrophoneStream = true)
    (hsys : c.hasSystemAudioStream = true)
    (hauto : c.autoCleanup = true)
    (hrs : c.recorderStopFails = false)
    (hpf : c.processFinalFails = false)
    (her : c.engineResult = some r)
    (f1 : c.micStreamStopFails = true)
    (f2 : c.sysStreamStopFails = true)
    (f3 : c.stopAllStreamsFails = true)
    (f4 : c.snippetStopFails = true)
    (f5 : c.sessionStopFails = true)
    (f6 : c.deleteRecordingFails = true) :
    (AudioTranscriber.stopRun c).1 =
      [.clearIntervals, .finalizeRecording, .emitRecordingStopped,
       .emitSessionTranscript, .stopAudioStreams, .stopSnippetPipeline,
       .stopSessionPipeline, .deleteRecordingFile, .emitStopped] ∧
    (AudioTranscriber.stopRun c).1.count .emitSessionTranscript = 1 ∧
    (AudioTranscriber.stopRun c).1.getLast? = some .emitStopped ∧
    (AudioTranscriber.stopRun c).2.1 =
      ["stop microphone stream", "stop system audio stream",
       "stop all audio streams", "stop snippet pipeline",
       "stop session pipeline", "delete recording file"] ∧
    (AudioTranscriber.stopRun c).2.2 = false := by
  have htrace : AudioTranscriber.stopRun c =
      ([.clearIntervals, .finalizeRecording, .emitRecordingStopped,
        .emitSessionTranscript, .stopAudioStreams, .stopSnippetPipeline,
        .stopSessionPipeline, .deleteRecordingFile, .emitStopped],
       ["stop microphone stream", "stop system audio stream",
        "stop all audio streams", "stop snippet pipeline",
        "stop session pipeline", "delete recording file"],
       false) := by
    unfold AudioTranscriber.stopRun
    rw [hrec, hsp, hsnip, hmic, hsys, hauto, hrs, hpf, her, f1, f2, f3, f4,
      f5, f6]
    simp
  rw [htrace]
  refine ⟨rfl, by decide, by decide, rfl, rfl⟩

/-- Witness for `stop_guaranteed_emission` at a fully concrete stop
scenario. -/
theorem stop_guaranteed_emission_witness :
    (AudioTranscriber.stopRun
        ⟨true, true, true, true, true, true, false, false,
         some ⟨['o', 'k'], 1⟩, true, true, true, true, true, true⟩).1 =
      [.clearIntervals, .finalizeRecording, .emitRecordingStopped,
       .emitSessionTranscript, .stopAudioStreams, .stopSnippetPipeline,
       .stopSessionPipeline, .deleteRecordingFile, .emitStopped] ∧
    (AudioTranscriber.stopRun
        ⟨true, true, true, true, true, true, false, false,
         some ⟨['o', 'k'], 1⟩, true, true, true, true, true, true⟩).1.count
        .emitSessionTranscript = 1 ∧
    (AudioTranscriber.stopRun
        ⟨true, true, true, true, true, true, false, false,
         some ⟨['o', 'k'], 1⟩, true, true, true, true, true, true⟩).1.getLast?
      = some .emitStopped ∧
    (AudioTranscriber.stopRun
        ⟨true, true, true, true, true, true, false, false,
         some ⟨['o', 'k'], 1⟩, true, true, true, true, true, true⟩).2.1 =
      ["stop microphone stream", "stop system audio stream",
       "stop all audio streams", "stop snippet pipeline",
       "stop session pipeline", "delete recording file"] ∧
    (AudioTranscriber.stopRun
        ⟨true, true, true, true, true, true, false, false,
         some ⟨['o', 'k'], 1⟩, true, true, true, true, true, true⟩).2.2 =
      false :=
  stop_guaranteed_emission
    ⟨true, true, true, true, true, true, false, false,
     some ⟨['o', 'k'], 1⟩, true, true, true, true, true, true⟩
    ⟨['o', 'k'], 1⟩ rfl rfl rfl rfl rfl rfl rfl rfl rfl rfl rfl rfl rfl
    rfl rfl
